import Mathlib

/-!
Shallow embedding of the FLAP Dish USSD food-ordering service (src/app.py)
and verification of the frozen claims about its session state machine,
pricing computation and boundary validation.

Modelling conventions:
* Python dict-shaped sessions become the `Session` structure; the handler
  functions mutate the session in place in Python, here each handler returns
  the updated session together with the outbound `Response`.
* External effects (uuid generation, timestamps, the Paystack payment call)
  are passed in as explicit oracle values (`Effects`, `PayResult`); the
  Airtable logging calls are no-ops for the session state and are omitted.
* Python `int(...)` parsing is modelled by `pyParseInt` (optional sign,
  decimal digits with single internal underscores, surrounding whitespace).
* Where Python would raise on an unreachable malformed session (e.g. a `QTY`
  session whose `selected_item` is `None`), the model totalises with a
  default; every theorem touching such a path carries the reachability
  hypothesis (`selected_item = some it`) instead.
-/

/-- A catalog item: (name, unit price) tuple in src/app.py `MENUS`. -/
structure Item where
  name : String
  price : Nat
deriving DecidableEq, Repr

/-- A cart entry is the `(item, qty)` pair appended by `handle_quantity`. -/
abbrev Cart := List (Item × Nat)

/-- A lightweight receipt appended to `session["order_history"]` by
`create_order` (src/app.py lines 172-177). -/
structure Receipt where
  order_id : String
  total : Nat
  created_at : String
deriving DecidableEq, Repr

/-- The per-subscriber session record created by `get_session`
(src/app.py lines 78-94). -/
structure Session where
  state : String
  cart : Cart
  selected_category : Option String
  selected_item : Option Item
  delivery_location : String
  payment_method : String
  network : String
  momo_number : String
  total : Nat
  order_history : List Receipt
  session_id : String
deriving DecidableEq, Repr

/-- The JSON body produced by `ussd_response` (src/app.py lines 772-786):
`msgtype` is the continuation flag. -/
structure Response where
  userid : String
  msisdn : String
  msg : String
  msgtype : Bool
deriving DecidableEq, Repr

/-- Abstract result of the Paystack payment call chain in `handle_confirm`
(`paystack_payment`, possibly falling back to `paystack_payment_alternative`):
the handler only reads the boolean `status`, the `message` and the optional
`display_text` of whichever dict comes back. -/
structure PayResult where
  status : Bool
  message : String
  display_text : Option String
deriving DecidableEq, Repr

/-- Oracle values for the effectful parts of one turn: the uuid used for a
fresh session id, the uuid-derived order id and timestamp used by
`create_order`, and the payment outcome. -/
structure Effects where
  new_session_id : String
  order_id : String
  created_at : String
  pay : PayResult
deriving DecidableEq, Repr

/-- src/app.py line 24: default support phone number. -/
def HELP_PHONE : String := "0548118716"

/-- src/app.py line 40. -/
def CATEGORIES : List String := ["Local Dishes", "Continental", "Drinks", "Snacks"]

/-- src/app.py lines 41-46 (`MENUS` dict; an unknown key, which would raise
`KeyError` in Python and is unreachable in the flow, is totalised to `[]`). -/
def MENUS (cat : String) : List Item :=
  if cat = "Local Dishes" then
    [{ name := "Jollof Rice", price := 30 }, { name := "Banku & Tilapia", price := 40 },
     { name := "Fufu & Light Soup", price := 35 }]
  else if cat = "Continental" then
    [{ name := "Pizza", price := 50 }, { name := "Burger", price := 25 },
     { name := "Pasta", price := 30 }]
  else if cat = "Drinks" then
    [{ name := "Coke", price := 5 }, { name := "Water", price := 2 },
     { name := "Juice", price := 7 }]
  else if cat = "Snacks" then
    [{ name := "Meat Pie", price := 10 }, { name := "Chips", price := 8 },
     { name := "Samosa", price := 12 }]
  else []

/-- Model of Python `str.strip()` at the character-list level, so that
concrete inputs evaluate inside the kernel. -/
def pyStrip (cs : List Char) : List Char :=
  ((cs.dropWhile Char.isWhitespace).reverse.dropWhile Char.isWhitespace).reverse

/-- src/app.py lines 72-76: `sanitize_input` strips, removes the four
characters of the character class, and caps at 200 characters. -/
def sanitize_input (text : String) : String :=
  (((pyStrip text.toList).filter
      (fun c => !(c = '<' || c = '>' || c = '"' || c = Char.ofNat 39))).take 200).asString

/-- src/app.py lines 56-70: `validate_phone_number` keeps the digits of the
input and matches them against the anchored pattern 233, one digit in 2-9,
then exactly eight digits. -/
def validate_phone_number (phone : String) : Bool :=
  if phone = "" then false
  else
    match phone.toList.filter Char.isDigit with
    | '2' :: '3' :: '3' :: d :: rest =>
        decide (50 ≤ d.toNat) && decide (d.toNat ≤ 57) &&
        decide (rest.length = 8) && rest.all Char.isDigit
    | _ => false

/-- Digit run acceptable to Python `int()`: nonempty, digits with single
underscores strictly between digits. -/
def pyDigitsOk (cs : List Char) : Bool :=
  !cs.isEmpty && cs.all (fun c => c.isDigit || c = '_')
    && cs.head? != some '_' && cs.getLast? != some '_'
    && (cs.zip cs.tail).all (fun p => !(p.1 = '_' && p.2 = '_'))

/-- Numeric value of a digit run, skipping underscores. -/
def pyDigitsVal (cs : List Char) : Nat :=
  cs.foldl (fun a c => if c = '_' then a else a * 10 + (c.toNat - 48)) 0

/-- Model of Python `int(text)` on the sanitized inputs this flow sees:
optional surrounding whitespace, optional sign, decimal digits with single
internal underscores; `none` models a `ValueError`. -/
def pyParseInt (s : String) : Option Int :=
  match pyStrip s.toList with
  | '+' :: rest => if pyDigitsOk rest then some (Int.ofNat (pyDigitsVal rest)) else none
  | '-' :: rest => if pyDigitsOk rest then some (-(Int.ofNat (pyDigitsVal rest))) else none
  | cs => if pyDigitsOk cs then some (Int.ofNat (pyDigitsVal cs)) else none

/-- Value of the guarded `int(input_text)` in the menu handlers (the guard
has already established that parsing succeeds on a positive numeral). -/
def pyToNat (s : String) : Nat :=
  ((pyParseInt s).getD 0).toNat

/-- Model of Python `input_text.startswith` on the one-character prefix "*"
(the first character is an asterisk), at the character-list level so that
concrete inputs evaluate inside the kernel. -/
def pyStartsWithStar (s : String) : Bool :=
  s.toList.head? == some '*'

/-- Model of Python `str.isdigit()`. -/
def pyIsdigit (s : String) : Bool :=
  !(s = "") && s.toList.all Char.isDigit

/-- The `[str(i+1) for i in range(n)]` lists used as menu-selection guards. -/
def menu_options (n : Nat) : List String :=
  (List.range n).map (fun i => toString (i + 1))

/-- The default session record of `get_session` (src/app.py lines 80-93). -/
def default_session (sid : String) : Session :=
  { state := "MAIN_MENU", cart := [], selected_category := none, selected_item := none,
    delivery_location := "", payment_method := "", network := "", momo_number := "",
    total := 0, order_history := [], session_id := sid }

/-- src/app.py lines 772-786: `ussd_response` truncates the message to the
120-character USSD limit and tags the continuation flag. -/
def ussd_response (userid msisdn msg : String) (continue_session : Bool) : Response :=
  { userid := userid, msisdn := msisdn, msg := msg.take 120, msgtype := continue_session }

/-- The welcome menu of `handle_main_menu` (src/app.py line 528). -/
def main_menu_msg : String :=
  "Welcome to FLAP Dish!\n1. Order Food\n2. My Orders\n3. Help\n0. Exit"

/-- The enumerated category list built in `handle_main_menu` / `handle_category`. -/
def category_menu : String :=
  String.intercalate "\n" (CATEGORIES.enum.map (fun p => toString (p.1 + 1) ++ ". " ++ p.2))

/-- The category-selection prompt (src/app.py lines 534-535 and 581-582). -/
def category_prompt : String :=
  "Select Category:\n" ++ category_menu ++ "\n#. Back"

/-- The per-category item menu built in `handle_category` / `handle_item`. -/
def item_menu (cat : String) : String :=
  String.intercalate "\n"
    ((MENUS cat).enum.map
      (fun p => toString (p.1 + 1) ++ ". " ++ p.2.name ++ " - GHS " ++ toString p.2.price))

/-- The item-selection prompt (src/app.py lines 575-576 and 604-605). -/
def item_prompt (cat : String) : String :=
  cat ++ ":\n" ++ item_menu cat ++ "\n#. Back"

/-- The quantity prompt (src/app.py lines 599 and 622). -/
def qty_prompt (item_name : String) : String :=
  "You selected " ++ item_name ++ ".\nEnter quantity (1-20):"

/-- The cart reprompt (src/app.py line 639). -/
def cart_prompt : String := "1. Add more\n2. Checkout\n#. Cancel"

/-- The payment-method menu (src/app.py lines 647, 669, 678, 686 context). -/
def payment_prompt : String := "Select payment:\n1. Mobile Money\n2. Cash\n#. Back"

/-- The mobile-money network menu (src/app.py lines 658 and 686). -/
def network_prompt : String := "Choose Network:\n1. MTN\n2. Vodafone\n3. AirtelTigo\n#. Back"

/-- The mobile-money number prompt (src/app.py lines 683 and 700). -/
def momo_number_prompt (msisdn : String) : String :=
  "Enter MoMo number or 1 to use " ++ msisdn ++ ":"

/-- The delivery fee computed inline in `show_confirmation`
(src/app.py lines 754-755), on the total item count of the cart. -/
def show_confirmation_fee (cart : Cart) : Nat :=
  let item_count := (cart.map (fun e => e.2)).sum
  if item_count > 0 then 15 + (item_count - 1) * 5 else 0

/-- The delivery fee computed inline in `create_order`
(src/app.py lines 147-152), on the total item count of the cart. -/
def create_order_fee (cart : Cart) : Nat :=
  let total_items := (cart.map (fun e => e.2)).sum
  if total_items > 0 then 15 + (total_items - 1) * 5 else 0

/-- The order total computed inline in `create_order`
(src/app.py lines 145-154): items subtotal + delivery fee + extra charge 2. -/
def create_order_total (cart : Cart) : Nat :=
  let items_total := (cart.map (fun e => e.1.price * e.2)).sum
  items_total + create_order_fee cart + 2

/-- src/app.py lines 139-179: `create_order` recomputes the total from the
cart and appends a lightweight receipt to the session's order history.  The
freshly generated uuid-based order id and the timestamp are passed in as
oracle values; the Airtable write is external and dropped.  Returns the
updated session and the order id, mirroring the Python return value. -/
def create_order (session : Session) (_msisdn : String) (order_id created_at : String) :
    Session × String :=
  let total := create_order_total session.cart
  ({ session with order_history :=
      session.order_history ++ [{ order_id := order_id, total := total, created_at := created_at }] },
   order_id)

/-- src/app.py lines 751-770: `show_confirmation` recomputes the fee and the
total from the current cart, stores the total in the session, and renders the
order summary. -/
def show_confirmation (session : Session) (user_id msisdn : String) : Session × Response :=
  let lines := session.cart.map
    (fun e => toString e.2 ++ " x " ++ e.1.name ++ " - GHS " ++ toString (e.1.price * e.2))
  let delivery_fee := show_confirmation_fee session.cart
  let extra_charge := 2
  let items_total := (session.cart.map (fun e => e.1.price * e.2)).sum
  let total := items_total + delivery_fee + extra_charge
  let session := { session with total := total }
  let payment_info :=
    if session.payment_method = "Cash" then "Cash"
    else "MoMo (" ++ session.network.toUpper ++ ")"
  let msg :=
    "Order Summary:\n" ++ String.intercalate "\n" lines ++
    "\nDelivery: GHS " ++ toString delivery_fee ++
    "\nService: GHS " ++ toString extra_charge ++
    "\nPayment: " ++ payment_info ++
    "\nTotal: GHS " ++ toString total ++ "\n1. Confirm\n2. Cancel"
  (session, ussd_response user_id msisdn msg true)

/-- src/app.py lines 526-561: `handle_main_menu`. -/
def handle_main_menu (input_text : String) (session : Session) (user_id msisdn : String) :
    Session × Response :=
  if input_text = "" ∨ pyStartsWithStar input_text ∨ input_text = "1" then
    if input_text = "1" then
      ({ session with state := "CATEGORY" },
       ussd_response user_id msisdn category_prompt true)
    else
      (session, ussd_response user_id msisdn main_menu_msg true)
  else if input_text = "2" then
    let orders := session.order_history
    if orders ≠ [] then
      let recent := orders.drop (orders.length - 3)
      let order_lines := recent.map (fun o => o.order_id ++ ": GHS " ++ toString o.total)
      (session, ussd_response user_id msisdn
        ("Recent Orders:\n" ++ String.intercalate "\n" order_lines ++ "\n#. Back") true)
    else
      (session, ussd_response user_id msisdn "No orders yet.\n#. Back" true)
  else if input_text = "3" then
    (session, ussd_response user_id msisdn ("Call " ++ HELP_PHONE ++ " for help.\n#. Back") true)
  else if input_text = "0" then
    (session, ussd_response user_id msisdn "Thank you for using FLAP Dish!" false)
  else if input_text = "#" then
    (session, ussd_response user_id msisdn main_menu_msg true)
  else if input_text = "1" ∨ input_text = "2" ∨ input_text = "3" ∨ input_text = "0" then
    (session, ussd_response user_id msisdn main_menu_msg true)
  else
    let msg :=
      if input_text.length = 1 ∧ pyIsdigit input_text then "Invalid option.\n" ++ main_menu_msg
      else main_menu_msg
    (session, ussd_response user_id msisdn msg true)

/-- src/app.py lines 563-583: `handle_category`. -/
def handle_category (input_text : String) (session : Session) (user_id msisdn : String) :
    Session × Response :=
  if input_text = "#" then
    handle_main_menu "" { session with state := "MAIN_MENU" } user_id msisdn
  else if input_text ∈ menu_options CATEGORIES.length then
    let cat := CATEGORIES.getD (pyToNat input_text - 1) ""
    ({ session with selected_category := some cat, state := "ITEM" },
     ussd_response user_id msisdn (item_prompt cat) true)
  else
    (session, ussd_response user_id msisdn category_prompt true)

/-- src/app.py lines 585-606: `handle_item` (the `None` category of an
unreachable malformed session is totalised to `""`). -/
def handle_item (input_text : String) (session : Session) (user_id msisdn : String) :
    Session × Response :=
  if input_text = "#" then
    handle_category "" { session with state := "CATEGORY" } user_id msisdn
  else
    let cat := session.selected_category.getD ""
    let menu := MENUS cat
    if input_text ∈ menu_options menu.length then
      let item := menu.getD (pyToNat input_text - 1) { name := "", price := 0 }
      ({ session with selected_item := some item, state := "QTY" },
       ussd_response user_id msisdn (qty_prompt item.name) true)
    else
      (session, ussd_response user_id msisdn (item_prompt cat) true)

/-- src/app.py lines 608-623: `handle_quantity`.  A quantity parsing as an
integer in [1,20] appends `(item, qty)` to the cart and moves to CART; any
other input (including "#") reprompts in place. -/
def handle_quantity (input_text : String) (session : Session) (user_id msisdn : String) :
    Session × Response :=
  let item := session.selected_item.getD { name := "", price := 0 }
  match pyParseInt input_text with
  | some q =>
      if 1 ≤ q ∧ q ≤ 20 then
        ({ session with cart := session.cart ++ [(item, q.toNat)], state := "CART" },
         ussd_response user_id msisdn
           (toString q ++ " x " ++ item.name ++ " added to cart.\n" ++ cart_prompt) true)
      else
        (session, ussd_response user_id msisdn (qty_prompt item.name) true)
  | none =>
      (session, ussd_response user_id msisdn (qty_prompt item.name) true)

/-- src/app.py lines 625-640: `handle_cart`. -/
def handle_cart (input_text : String) (session : Session) (user_id msisdn : String) :
    Session × Response :=
  if input_text = "1" then
    handle_category "" { session with state := "CATEGORY" } user_id msisdn
  else if input_text = "2" then
    ({ session with state := "DELIVERY" },
     ussd_response user_id msisdn "Enter delivery location:" true)
  else if input_text = "#" then
    handle_main_menu "" { session with cart := [], state := "MAIN_MENU" } user_id msisdn
  else
    (session, ussd_response user_id msisdn cart_prompt true)

/-- src/app.py lines 642-651: `handle_delivery`.  There is no "#" branch: a
location of fewer than 3 stripped characters (including "#") reprompts. -/
def handle_delivery (input_text : String) (session : Session) (user_id msisdn : String) :
    Session × Response :=
  if input_text ≠ "" ∧ 3 ≤ (pyStrip input_text.toList).length then
    ({ session with delivery_location := input_text, state := "PAYMENT_METHOD" },
     ussd_response user_id msisdn payment_prompt true)
  else
    (session, ussd_response user_id msisdn "Enter delivery location (min 3 chars):" true)

/-- src/app.py lines 653-670: `handle_payment_method`. -/
def handle_payment_method (input_text : String) (session : Session) (user_id msisdn : String) :
    Session × Response :=
  if input_text = "1" then
    ({ session with payment_method := "Mobile Money", state := "MOMO_NETWORK" },
     ussd_response user_id msisdn network_prompt true)
  else if input_text = "2" then
    show_confirmation { session with payment_method := "Cash", state := "CONFIRM" } user_id msisdn
  else if input_text = "#" then
    ({ session with state := "DELIVERY" },
     ussd_response user_id msisdn "Enter delivery location:" true)
  else
    (session, ussd_response user_id msisdn payment_prompt true)

/-- src/app.py lines 672-687: `handle_momo_network`. -/
def handle_momo_network (input_text : String) (session : Session) (user_id msisdn : String) :
    Session × Response :=
  if input_text = "#" then
    ({ session with state := "PAYMENT_METHOD" },
     ussd_response user_id msisdn payment_prompt true)
  else if input_text = "1" ∨ input_text = "2" ∨ input_text = "3" then
    let net := if input_text = "1" then "mtn" else if input_text = "2" then "vodafone"
               else "airteltigo"
    ({ session with network := net, state := "MOMO_NUMBER" },
     ussd_response user_id msisdn (momo_number_prompt msisdn) true)
  else
    (session, ussd_response user_id msisdn network_prompt true)

/-- src/app.py lines 689-701: `handle_momo_number`. -/
def handle_momo_number (input_text : String) (session : Session) (user_id msisdn : String) :
    Session × Response :=
  if input_text = "1" then
    show_confirmation { session with momo_number := msisdn, state := "CONFIRM" } user_id msisdn
  else if validate_phone_number input_text then
    show_confirmation { session with momo_number := input_text, state := "CONFIRM" } user_id msisdn
  else
    (session, ussd_response user_id msisdn (momo_number_prompt msisdn) true)

/-- src/app.py lines 703-749: `handle_confirm`.  "2" cancels (clearing only
the cart); "1" unconditionally calls `create_order` and then branches on the
payment method and the payment outcome; anything else redisplays the
confirmation screen. -/
def handle_confirm (input_text : String) (session : Session) (user_id msisdn : String)
    (order_id created_at : String) (pay : PayResult) : Session × Response :=
  if input_text = "2" then
    handle_main_menu "" { session with cart := [], state := "MAIN_MENU" } user_id msisdn
  else if input_text = "1" then
    let created := create_order session msisdn order_id created_at
    let session := created.1
    let oid := created.2
    if session.payment_method = "Mobile Money" then
      if pay.status then
        let payment_msg := pay.display_text.getD "Check your phone for payment prompt"
        ({ session with cart := [], state := "MAIN_MENU" },
         ussd_response user_id msisdn
           ("Order #" ++ oid ++ " created!\n" ++ payment_msg ++ "\nThanks!") false)
      else
        (session, ussd_response user_id msisdn
          ("Payment failed: " ++ pay.message ++ "\n1. Retry\n2. Cancel") true)
    else
      ({ session with cart := [], state := "MAIN_MENU" },
       ussd_response user_id msisdn
         ("Order #" ++ oid ++ " placed!\nPay cash on delivery. Thanks!") false)
  else
    show_confirmation session user_id msisdn

/-- The state-tag dispatch of `ussd_handler` (src/app.py lines 494-517),
including the fallback that resets an unrecognized state tag to MAIN_MENU. -/
def dispatch (input_text : String) (session : Session) (user_id msisdn : String)
    (eff : Effects) : Session × Response :=
  if session.state = "MAIN_MENU" then handle_main_menu input_text session user_id msisdn
  else if session.state = "CATEGORY" then handle_category input_text session user_id msisdn
  else if session.state = "ITEM" then handle_item input_text session user_id msisdn
  else if session.state = "QTY" then handle_quantity input_text session user_id msisdn
  else if session.state = "CART" then handle_cart input_text session user_id msisdn
  else if session.state = "DELIVERY" then handle_delivery input_text session user_id msisdn
  else if session.state = "PAYMENT_METHOD" then
    handle_payment_method input_text session user_id msisdn
  else if session.state = "MOMO_NETWORK" then
    handle_momo_network input_text session user_id msisdn
  else if session.state = "MOMO_NUMBER" then
    handle_momo_number input_text session user_id msisdn
  else if session.state = "CONFIRM" then
    handle_confirm input_text session user_id msisdn eff.order_id eff.created_at eff.pay
  else
    handle_main_menu "" { session with state := "MAIN_MENU" } user_id msisdn

/-- The in-memory session map `memory_sessions` (src/app.py line 49). -/
abbrev Sessions := List (String × Session)

/-- Lookup half of `get_session`. -/
def sessions_get (m : Sessions) (k : String) : Option Session :=
  (m.find? (fun p => p.1 == k)).map Prod.snd

/-- `save_session` / dict assignment into `memory_sessions`. -/
def sessions_set (m : Sessions) (k : String) (v : Session) : Sessions :=
  if m.any (fun p => p.1 == k) then m.map (fun p => if p.1 == k then (k, v) else p)
  else m ++ [(k, v)]

/-- One inbound request body as read by `ussd_handler` (src/app.py
lines 466-472): `MSISDN` may be absent, `USERID` defaults to "NALOTest". -/
structure TurnRequest where
  msisdn : Option String
  userdata : String
  userid : Option String
deriving DecidableEq, Repr

/-- src/app.py lines 461-520: `ussd_handler` for a well-formed JSON body.
Missing or invalid subscriber numbers are rejected with a terminal response
before any session is read or created; otherwise the session is loaded (or
freshly created), dispatched on its state tag, and saved back. -/
def ussd_handler (req : TurnRequest) (sessions : Sessions) (eff : Effects) :
    Sessions × Response :=
  let input_text := sanitize_input req.userdata
  let user_id := req.userid.getD "NALOTest"
  if req.msisdn = none ∨ req.msisdn = some "" then
    (sessions, ussd_response user_id "unknown" "No phone number provided." false)
  else
    let msisdn := req.msisdn.getD ""
    if !validate_phone_number msisdn then
      (sessions, ussd_response user_id msisdn
        ("Phone must start with 233. Got: " ++ msisdn) false)
    else
      let session := (sessions_get sessions msisdn).getD (default_session eff.new_session_id)
      let result := dispatch input_text session user_id msisdn eff
      (sessions_set sessions msisdn result.1, result.2)

/-! ### Spec-side definitions

These follow the wording of the specification (pricing-engine section) and
are compared against the code-derived definitions above. -/

/-- Spec wording: the items subtotal of a cart. -/
def spec_items_subtotal (cart : Cart) : Nat :=
  (cart.map (fun e => e.1.price * e.2)).sum

/-- Spec wording: the total item count of a cart (summed quantities). -/
def spec_count_items (cart : Cart) : Nat :=
  (cart.map (fun e => e.2)).sum

/-- Spec wording: total = items subtotal + fee + flat service charge minus
the discount, floored at 0. -/
def spec_total (subtotal fee charge discount : Int) : Int :=
  max (subtotal + fee + charge - discount) 0

/-- The ten state tags dispatched by `ussd_handler` (src/app.py lines 495-514). -/
def STATES : List String :=
  ["MAIN_MENU", "CATEGORY", "ITEM", "QTY", "CART", "DELIVERY", "PAYMENT_METHOD",
   "MOMO_NETWORK", "MOMO_NUMBER", "CONFIRM"]

/-! ### Concrete sample data used by witnesses and counterexamples -/

/-- First item of the first category. -/
def jollof : Item := { name := "Jollof Rice", price := 30 }

/-- A reachable session sitting in QTY with one item already in the cart. -/
def qty_sample : Session :=
  { default_session "sid" with
    state := "QTY"
    selected_category := some "Local Dishes"
    selected_item := some jollof
    cart := [(jollof, 1)] }

/-- A reachable session sitting in DELIVERY with one item in the cart. -/
def delivery_sample : Session :=
  { default_session "sid" with
    state := "DELIVERY"
    selected_category := some "Local Dishes"
    selected_item := some jollof
    cart := [(jollof, 1)] }

/-- A reachable cash-payment session sitting in CONFIRM. -/
def confirm_sample : Session :=
  { default_session "sid" with
    state := "CONFIRM"
    selected_category := some "Local Dishes"
    selected_item := some jollof
    cart := [(jollof, 1)]
    delivery_location := "Accra Mall"
    payment_method := "Cash" }

/-- A reachable mobile-money session sitting in CONFIRM. -/
def momo_sample : Session :=
  { default_session "sid" with
    state := "CONFIRM"
    selected_category := some "Local Dishes"
    selected_item := some jollof
    cart := [(jollof, 2)]
    delivery_location := "Accra Mall"
    payment_method := "Mobile Money"
    network := "mtn"
    momo_number := "233241234567" }

/-- A session whose stored state tag is not one of the ten dispatched tags. -/
def limbo_sample : Session :=
  { default_session "sid" with
    state := "LIMBO" }

/-- A failing payment outcome. -/
def pay_fail : PayResult := { status := false, message := "declined", display_text := none }

/-- A fixed effect bundle for concrete turns. -/
def eff_sample : Effects :=
  { new_session_id := "sid", order_id := "ORD1", created_at := "ts", pay := pay_fail }

/-! ### Helper lemmas -/

theorem categories_length : CATEGORIES.length = 4 := rfl

theorem menu_options_four : menu_options 4 = ["1", "2", "3", "4"] := by decide

theorem show_confirmation_state (s : Session) (u m : String) :
    (show_confirmation s u m).1.state = s.state := rfl

theorem handle_main_menu_state (i : String) (s : Session) (u m : String) :
    (handle_main_menu i s u m).1.state = s.state ∨
    (handle_main_menu i s u m).1.state = "CATEGORY" := by
  unfold handle_main_menu
  try dsimp only
  split_ifs <;> simp

theorem handle_category_state (i : String) (s : Session) (u m : String) :
    (handle_category i s u m).1.state = "MAIN_MENU" ∨
    (handle_category i s u m).1.state = "ITEM" ∨
    (handle_category i s u m).1.state = s.state := by
  unfold handle_category
  try dsimp only
  split_ifs <;> simp [handle_main_menu]

theorem handle_item_state (i : String) (s : Session) (u m : String) :
    (handle_item i s u m).1.state = "CATEGORY" ∨
    (handle_item i s u m).1.state = "QTY" ∨
    (handle_item i s u m).1.state = s.state := by
  unfold handle_item
  try dsimp only
  split_ifs <;> simp [handle_category, categories_length, menu_options_four]

theorem handle_quantity_state (i : String) (s : Session) (u m : String) :
    (handle_quantity i s u m).1.state = "CART" ∨
    (handle_quantity i s u m).1.state = s.state := by
  unfold handle_quantity
  try dsimp only
  cases pyParseInt i with
  | none => simp
  | some q => by_cases h : 1 ≤ q ∧ q ≤ 20 <;> simp [h]

theorem handle_cart_state (i : String) (s : Session) (u m : String) :
    (handle_cart i s u m).1.state = "CATEGORY" ∨
    (handle_cart i s u m).1.state = "DELIVERY" ∨
    (handle_cart i s u m).1.state = "MAIN_MENU" ∨
    (handle_cart i s u m).1.state = s.state := by
  unfold handle_cart
  try dsimp only
  split_ifs <;> simp [handle_category, handle_main_menu, categories_length, menu_options_four]

theorem handle_delivery_state (i : String) (s : Session) (u m : String) :
    (handle_delivery i s u m).1.state = "PAYMENT_METHOD" ∨
    (handle_delivery i s u m).1.state = s.state := by
  unfold handle_delivery
  try dsimp only
  split_ifs <;> simp

theorem handle_payment_method_state (i : String) (s : Session) (u m : String) :
    (handle_payment_method i s u m).1.state = "MOMO_NETWORK" ∨
    (handle_payment_method i s u m).1.state = "CONFIRM" ∨
    (handle_payment_method i s u m).1.state = "DELIVERY" ∨
    (handle_payment_method i s u m).1.state = s.state := by
  unfold handle_payment_method
  try dsimp only
  split_ifs <;> simp [show_confirmation]

theorem handle_momo_network_state (i : String) (s : Session) (u m : String) :
    (handle_momo_network i s u m).1.state = "PAYMENT_METHOD" ∨
    (handle_momo_network i s u m).1.state = "MOMO_NUMBER" ∨
    (handle_momo_network i s u m).1.state = s.state := by
  unfold handle_momo_network
  try dsimp only
  split_ifs <;> simp

theorem handle_momo_number_state (i : String) (s : Session) (u m : String) :
    (handle_momo_number i s u m).1.state = "CONFIRM" ∨
    (handle_momo_number i s u m).1.state = s.state := by
  unfold handle_momo_number
  try dsimp only
  split_ifs <;> simp [show_confirmation]

theorem handle_confirm_state (i : String) (s : Session) (u m oid ts : String) (pay : PayResult) :
    (handle_confirm i s u m oid ts pay).1.state = "MAIN_MENU" ∨
    (handle_confirm i s u m oid ts pay).1.state = s.state := by
  unfold handle_confirm
  try dsimp only
  split_ifs <;> simp [handle_main_menu, show_confirmation, create_order]
/-- Every dispatch outcome carries one of the ten recognized state tags. -/
theorem dispatch_state_mem (input : String) (s : Session) (u m : String) (eff : Effects) :
    (dispatch input s u m eff).1.state ∈ STATES := by
  unfold dispatch
  by_cases h1 : s.state = "MAIN_MENU"
  · rw [if_pos h1]
    rcases handle_main_menu_state input s u m with h | h <;> rw [h]
    · rw [h1]; decide
    · decide
  · rw [if_neg h1]
    by_cases h2 : s.state = "CATEGORY"
    · rw [if_pos h2]
      rcases handle_category_state input s u m with h | h | h <;> rw [h]
      · decide
      · decide
      · rw [h2]; decide
    · rw [if_neg h2]
      by_cases h3 : s.state = "ITEM"
      · rw [if_pos h3]
        rcases handle_item_state input s u m with h | h | h <;> rw [h]
        · decide
        · decide
        · rw [h3]; decide
      · rw [if_neg h3]
        by_cases h4 : s.state = "QTY"
        · rw [if_pos h4]
          rcases handle_quantity_state input s u m with h | h <;> rw [h]
          · decide
          · rw [h4]; decide
        · rw [if_neg h4]
          by_cases h5 : s.state = "CART"
          · rw [if_pos h5]
            rcases handle_cart_state input s u m with h | h | h | h <;> rw [h]
            · decide
            · decide
            · decide
            · rw [h5]; decide
          · rw [if_neg h5]
            by_cases h6 : s.state = "DELIVERY"
            · rw [if_pos h6]
              rcases handle_delivery_state input s u m with h | h <;> rw [h]
              · decide
              · rw [h6]; decide
            · rw [if_neg h6]
              by_cases h7 : s.state = "PAYMENT_METHOD"
              · rw [if_pos h7]
                rcases handle_payment_method_state input s u m with h | h | h | h <;> rw [h]
                · decide
                · decide
                · decide
                · rw [h7]; decide
              · rw [if_neg h7]
                by_cases h8 : s.state = "MOMO_NETWORK"
                · rw [if_pos h8]
                  rcases handle_momo_network_state input s u m with h | h | h <;> rw [h]
                  · decide
                  · decide
                  · rw [h8]; decide
                · rw [if_neg h8]
                  by_cases h9 : s.state = "MOMO_NUMBER"
                  · rw [if_pos h9]
                    rcases handle_momo_number_state input s u m with h | h <;> rw [h]
                    · decide
                    · rw [h9]; decide
                  · rw [if_neg h9]
                    by_cases h10 : s.state = "CONFIRM"
                    · rw [if_pos h10]
                      rcases handle_confirm_state input s u m eff.order_id eff.created_at eff.pay with h | h <;> rw [h]
                      · decide
                      · rw [h10]; decide
                    · rw [if_neg h10]
                      have hmm2 : ("MAIN_MENU" : String) ∈ STATES := by decide
                      exact hmm2

/-! ### Claims -/

/-- C1, counterexample: the claim says "#" in QTY returns to ITEM and "#" in
DELIVERY returns to CART.  In the code neither handler has a "#" branch: on
the concrete reachable sessions below, "#" leaves the session untouched (state
stays QTY resp. DELIVERY) and replays the same state's prompt. -/
theorem C1_counterexample_qty_delivery_hash :
    (handle_quantity "#" qty_sample "user" "233241234567").1.state ≠ "ITEM" ∧
    (handle_quantity "#" qty_sample "user" "233241234567").1 = qty_sample ∧
    qty_sample.state = "QTY" ∧
    (handle_delivery "#" delivery_sample "user" "233241234567").1.state ≠ "CART" ∧
    (handle_delivery "#" delivery_sample "user" "233241234567").1 = delivery_sample ∧
    delivery_sample.state = "DELIVERY" := by
  refine ⟨by decide, by decide, rfl, by decide, by decide, rfl⟩

/-- C1, amended: "#" steps exactly one state up the back-chain for the four
states that implement it — ITEM to CATEGORY, CATEGORY to MAIN_MENU,
PAYMENT_METHOD to DELIVERY, MOMO_NETWORK to PAYMENT_METHOD — replaying the
target state's prompt and changing no session field but the state tag; in QTY
and DELIVERY, however, "#" is treated as invalid input: the session is
entirely unchanged and the same state's prompt is replayed. -/
theorem C1_back_chain (s : Session) (u m : String) (it : Item)
    (hsel : s.selected_item = some it) :
    handle_item "#" s u m =
      ({ s with state := "CATEGORY" }, ussd_response u m category_prompt true) ∧
    handle_category "#" s u m =
      ({ s with state := "MAIN_MENU" }, ussd_response u m main_menu_msg true) ∧
    handle_payment_method "#" s u m =
      ({ s with state := "DELIVERY" }, ussd_response u m "Enter delivery location:" true) ∧
    handle_momo_network "#" s u m =
      ({ s with state := "PAYMENT_METHOD" }, ussd_response u m payment_prompt true) ∧
    handle_quantity "#" s u m = (s, ussd_response u m (qty_prompt it.name) true) ∧
    handle_delivery "#" s u m =
      (s, ussd_response u m "Enter delivery location (min 3 chars):" true) := by
  refine ⟨rfl, rfl, rfl, rfl, ?_, rfl⟩
  have h : handle_quantity "#" s u m =
      (s, ussd_response u m
        (qty_prompt (s.selected_item.getD { name := "", price := 0 }).name) true) := rfl
  rw [h, hsel]
  exact rfl

/-- C1 witness: the amended back-chain theorem applied to a concrete
reachable QTY session. -/
theorem C1_back_chain_witness :
    handle_quantity "#" qty_sample "user" "233241234567" =
      (qty_sample, ussd_response "user" "233241234567" (qty_prompt jollof.name) true) := by
  have h := C1_back_chain qty_sample "user" "233241234567" jollof (by decide)
  exact h.2.2.2.2.1

/-- C2, counterexample: cancelling from CONFIRM with "2" (and from CART with
"#") returns to MAIN_MENU but does not leave every per-order field empty: the
delivery location and payment fields of the cancelled attempt survive. -/
theorem C2_counterexample_fields_survive :
    (handle_confirm "2" confirm_sample "user" "233241234567" "ORD1" "ts" pay_fail).1.state
      = "MAIN_MENU" ∧
    (handle_confirm "2" confirm_sample "user" "233241234567" "ORD1" "ts" pay_fail).1.delivery_location
      = "Accra Mall" ∧
    (handle_confirm "2" confirm_sample "user" "233241234567" "ORD1" "ts" pay_fail).1.payment_method
      = "Cash" ∧
    (handle_cart "#" { confirm_sample with state := "CART" } "user" "233241234567").1.delivery_location
      = "Accra Mall" := by
  refine ⟨by decide, by decide, by decide, by decide⟩

/-- C2, amended: cancellation — "2" in CONFIRM or "#" in CART — empties the
cart, returns to MAIN_MENU and shows the main-menu prompt; every other
session field (delivery location, payment method, network, momo number,
total, order history) is retained, not cleared. -/
theorem C2_cancel_clears_cart_only (s : Session) (u m oid ts : String) (pay : PayResult) :
    handle_confirm "2" s u m oid ts pay =
      ({ s with cart := [], state := "MAIN_MENU" }, ussd_response u m main_menu_msg true) ∧
    handle_cart "#" s u m =
      ({ s with cart := [], state := "MAIN_MENU" }, ussd_response u m main_menu_msg true) :=
  ⟨rfl, rfl⟩

/-- C3: composing or redisplaying the confirmation screen recomputes the
total from the current cart: the result is entirely independent of the
session's previously stored total, redisplaying is idempotent on both the
session and the response, and the stored total equals subtotal + fee + 2. -/
theorem C3_confirmation_recompute_idempotent (s : Session) (u m : String) :
    (∀ t : Nat, show_confirmation { s with total := t } u m = show_confirmation s u m) ∧
    show_confirmation (show_confirmation s u m).1 u m = show_confirmation s u m ∧
    (show_confirmation s u m).1.total =
      spec_items_subtotal s.cart + show_confirmation_fee s.cart + 2 :=
  ⟨fun _ => rfl, rfl, rfl⟩

/-- C4, counterexample: the claim quantifies over every discount amount, but
the code applies no discount anywhere: on a concrete confirmation session the
computed total disagrees with the spec formula at discount 5. -/
theorem C4_counterexample_discount_ignored :
    ¬ ∀ discount : Int,
        ((show_confirmation confirm_sample "user" "233241234567").1.total : Int) =
          spec_total (spec_items_subtotal confirm_sample.cart)
            (show_confirmation_fee confirm_sample.cart) 2 discount := by
  intro hall
  have h5 := hall 5
  revert h5
  decide

/-- C4, amended: the code never applies a discount, so its computed totals
(both the confirmation-screen total and the receipt total recorded by
`create_order`) equal the spec formula subtotal + fee + service charge 2
minus discount, floored at 0, instantiated with discount 0 (at which the
flooring is vacuous). -/
theorem C4_total_formula (s : Session) (u m oid ts : String) :
    ((show_confirmation s u m).1.total : Int) =
      spec_total (spec_items_subtotal s.cart) (show_confirmation_fee s.cart) 2 0 ∧
    (create_order s m oid ts).1.order_history =
      s.order_history ++
        [{ order_id := oid,
           total := (spec_total (spec_items_subtotal s.cart) (create_order_fee s.cart) 2 0).toNat,
           created_at := ts }] := by
  have key : ∀ a b : Nat, (spec_total (a : Int) (b : Int) 2 0).toNat = a + b + 2 := by
    intro a b
    unfold spec_total
    omega
  constructor
  · show ((spec_items_subtotal s.cart + show_confirmation_fee s.cart + 2 : Nat) : Int) = _
    unfold spec_total
    push_cast
    omega
  · rw [key]
    rfl

/-- C5: for carts whose entries respect the quantity invariant (every
quantity at least 1, as enforced by `handle_quantity`), the delivery fee
computed by the confirmation screen and by order creation is the item-count
tier formula base 15 plus step 5 per item beyond the first, is 0 exactly on
the empty cart, and the two computations agree on every cart. -/
theorem C5_delivery_fee_tiered (cart : Cart) (hq : ∀ e ∈ cart, 1 ≤ e.2) :
    (cart ≠ [] → show_confirmation_fee cart = 15 + 5 * (spec_count_items cart - 1) ∧
                 create_order_fee cart = 15 + 5 * (spec_count_items cart - 1)) ∧
    (cart = [] → show_confirmation_fee cart = 0 ∧ create_order_fee cart = 0) ∧
    show_confirmation_fee cart = create_order_fee cart := by
  refine ⟨?_, ?_, rfl⟩
  · intro hne
    have hcount : 1 ≤ (List.map (fun e => e.2) cart).sum := by
      cases cart with
      | nil => simp at hne
      | cons e tl =>
        have h1 := hq e (by simp)
        simp only [List.map_cons, List.sum_cons]
        omega
    unfold show_confirmation_fee create_order_fee spec_count_items
    dsimp only
    split_ifs with hc
    · constructor <;> omega
    · omega
  · intro he
    subst he
    exact ⟨rfl, rfl⟩

/-- C5 witness: the fee theorem applied to the concrete two-item cart of the
mobile-money sample session. -/
theorem C5_delivery_fee_tiered_witness :
    momo_sample.cart ≠ [] ∧
    show_confirmation_fee momo_sample.cart = 15 + 5 * (spec_count_items momo_sample.cart - 1) ∧
    create_order_fee momo_sample.cart = 15 + 5 * (spec_count_items momo_sample.cart - 1) := by
  have h := C5_delivery_fee_tiered momo_sample.cart (by decide)
  exact ⟨by decide, (h.1 (by decide)).1, (h.1 (by decide)).2⟩

/-- C6: in QTY with a selected item, any input parsing as an integer q with
1 ≤ q ≤ 20 appends exactly one `(item, q)` entry to the end of the cart
(leaving every previous entry unchanged), moves the session to CART, and
keeps the session alive; no other order field is touched.  (Cart entries in
this code are `(item, quantity)` pairs; the vendor is determined by the
category from which the item was selected.) -/
theorem C6_qty_append (input : String) (s : Session) (u m : String) (it : Item) (q : Int)
    (hsel : s.selected_item = some it) (hparse : pyParseInt input = some q)
    (h1 : 1 ≤ q) (h20 : q ≤ 20) :
    (handle_quantity input s u m).1 =
      { s with cart := s.cart ++ [(it, q.toNat)], state := "CART" } ∧
    (handle_quantity input s u m).2.msgtype = true := by
  unfold handle_quantity
  rw [hparse]
  simp [hsel, if_pos (And.intro h1 h20), ussd_response]

/-- C6 witness: entering quantity 3 on the concrete QTY session appends
(Jollof Rice, 3) after the existing entry and reaches CART. -/
theorem C6_qty_append_witness :
    (handle_quantity "3" qty_sample "user" "233241234567").1 =
      { qty_sample with cart := qty_sample.cart ++ [(jollof, (3 : Int).toNat)], state := "CART" } ∧
    (handle_quantity "3" qty_sample "user" "233241234567").2.msgtype = true := by
  have h := C6_qty_append "3" qty_sample "user" "233241234567" jollof 3
    (by decide) (by decide) (by decide) (by decide)
  exact h

/-- C7: confirm submissions are not deduplicated.  Every "1" processed in
CONFIRM appends a fresh receipt (with the order id generated for that turn)
to the order history; when the mobile-money payment fails the session stays
in CONFIRM with a continuing response, so a retried "1" — whatever its
payment outcome — appends a second receipt, and with distinct generated ids
the two order records are distinct. -/
theorem C7_confirm_no_dedup (s : Session) (u m oid1 oid2 ts1 ts2 : String)
    (pay1 pay2 : PayResult) (hstate : s.state = "CONFIRM")
    (hpm : s.payment_method = "Mobile Money") (hfail : pay1.status = false)
    (hids : oid1 ≠ oid2) :
    (handle_confirm "1" s u m oid1 ts1 pay1).1.state = "CONFIRM" ∧
    (handle_confirm "1" s u m oid1 ts1 pay1).2.msgtype = true ∧
    (handle_confirm "1" s u m oid1 ts1 pay1).1.order_history =
      s.order_history ++
        [{ order_id := oid1, total := create_order_total s.cart, created_at := ts1 }] ∧
    (handle_confirm "1" (handle_confirm "1" s u m oid1 ts1 pay1).1 u m oid2 ts2 pay2).1.order_history =
      s.order_history ++
        [{ order_id := oid1, total := create_order_total s.cart, created_at := ts1 },
         { order_id := oid2, total := create_order_total s.cart, created_at := ts2 }] ∧
    oid1 ≠ oid2 := by
  have h1 : (handle_confirm "1" s u m oid1 ts1 pay1).1 =
      { s with order_history :=
          s.order_history ++
            [{ order_id := oid1, total := create_order_total s.cart, created_at := ts1 }] } := by
    unfold handle_confirm create_order
    simp [hpm, hfail]
  refine ⟨by rw [h1]; exact hstate, ?_, by rw [h1], ?_, hids⟩
  · unfold handle_confirm create_order
    simp [hpm, hfail, ussd_response]
  · rw [h1]
    unfold handle_confirm create_order
    simp [hpm]
    by_cases hp2 : pay2.status = true
    · simp [hp2]
    · simp [Bool.not_eq_true] at hp2
      simp [hp2]

/-- C7 witness: two consecutive "1" inputs on the concrete mobile-money
CONFIRM session, the first failing payment, yield two receipts with the two
distinct generated ids. -/
theorem C7_confirm_no_dedup_witness :
    (handle_confirm "1" momo_sample "user" "233241234567" "ORD1" "t1" pay_fail).1.state
      = "CONFIRM" ∧
    (handle_confirm "1"
        (handle_confirm "1" momo_sample "user" "233241234567" "ORD1" "t1" pay_fail).1
        "user" "233241234567" "ORD2" "t2" pay_fail).1.order_history =
      momo_sample.order_history ++
        [{ order_id := "ORD1", total := create_order_total momo_sample.cart, created_at := "t1" },
         { order_id := "ORD2", total := create_order_total momo_sample.cart, created_at := "t2" }] := by
  have h := C7_confirm_no_dedup momo_sample "user" "233241234567" "ORD1" "ORD2" "t1" "t2"
    pay_fail pay_fail (by decide) (by decide) (by decide) (by decide)
  exact ⟨h.1, h.2.2.2.1⟩

/-- C9: a request whose subscriber number is missing, empty, or fails the
233-plus-nine-digits format check is answered with a terminal response
(continuation flag false) and the session map is left completely unchanged —
no session is loaded or created and no state handler runs. -/
theorem C9_boundary_reject (req : TurnRequest) (sessions : Sessions) (eff : Effects)
    (hbad : req.msisdn = none ∨ req.msisdn = some "" ∨
            ∃ p, req.msisdn = some p ∧ validate_phone_number p = false) :
    (ussd_handler req sessions eff).1 = sessions ∧
    (ussd_handler req sessions eff).2.msgtype = false := by
  unfold ussd_handler
  rcases hbad with h | h | ⟨p, hp, hv⟩
  · rw [if_pos (Or.inl h)]
    exact ⟨rfl, rfl⟩
  · rw [if_pos (Or.inr h)]
    exact ⟨rfl, rfl⟩
  · by_cases hnone : req.msisdn = none ∨ req.msisdn = some ""
    · rw [if_pos hnone]
      exact ⟨rfl, rfl⟩
    · rw [if_neg hnone, hp]
      simp [hv, ussd_response]

/-- C9 witness: a request carrying the malformed number "12345" on a
nonempty session map is rejected terminally and the map is untouched. -/
theorem C9_boundary_reject_witness :
    (ussd_handler { msisdn := some "12345", userdata := "1", userid := none }
        [("233241234567", qty_sample)] eff_sample).1 = [("233241234567", qty_sample)] ∧
    (ussd_handler { msisdn := some "12345", userdata := "1", userid := none }
        [("233241234567", qty_sample)] eff_sample).2.msgtype = false := by
  have h := C9_boundary_reject { msisdn := some "12345", userdata := "1", userid := none }
    [("233241234567", qty_sample)] eff_sample
    (Or.inr (Or.inr ⟨"12345", rfl, by decide⟩))
  exact h

/-- C10: the reachable state space is closed — after any dispatched turn the
stored state tag is one of the ten recognized tags, and a stored session
carrying an unrecognized tag is reset to MAIN_MENU and served the main-menu
prompt. -/
theorem C10_state_space_closed (input : String) (s : Session) (u m : String) (eff : Effects) :
    (dispatch input s u m eff).1.state ∈ STATES ∧
    (s.state ∉ STATES →
      dispatch input s u m eff =
        ({ s with state := "MAIN_MENU" }, ussd_response u m main_menu_msg true)) := by
  refine ⟨dispatch_state_mem input s u m eff, ?_⟩
  intro hbad
  have n : ∀ t : String, t ∈ STATES → s.state ≠ t := fun t ht he => hbad (he ▸ ht)
  unfold dispatch
  rw [if_neg (n _ (by decide)), if_neg (n _ (by decide)), if_neg (n _ (by decide)),
      if_neg (n _ (by decide)), if_neg (n _ (by decide)), if_neg (n _ (by decide)),
      if_neg (n _ (by decide)), if_neg (n _ (by decide)), if_neg (n _ (by decide)),
      if_neg (n _ (by decide))]
  rfl

/-- C10 witness: a stored session with the unrecognized tag "LIMBO" is reset
to MAIN_MENU and shown the welcome menu. -/
theorem C10_state_space_closed_witness :
    (dispatch "7" limbo_sample "user" "233241234567" eff_sample).1.state ∈ STATES ∧
    dispatch "7" limbo_sample "user" "233241234567" eff_sample =
      ({ limbo_sample with state := "MAIN_MENU" },
       ussd_response "user" "233241234567" main_menu_msg true) := by
  have h := C10_state_space_closed "7" limbo_sample "user" "233241234567" eff_sample
  exact ⟨h.1, h.2 (by decide)⟩

/-- C8: for every selection or entry state, an input outside that state's
valid set (wrong menu digit, quantity out of [1,20], location shorter than 3
stripped characters, unparseable text) leaves the session record completely
unchanged and redisplays the same state's prompt — with an "Invalid option."
prefix exactly when a single wrong digit is typed on the main menu — keeping
the session alive; in CONFIRM the redisplay is the recomputed confirmation
screen, which preserves the state tag and the cart. -/
theorem C8_invalid_input_no_advance (input : String) (s : Session) (u m oid ts : String)
    (pay : PayResult) (it : Item) (cat : String)
    (hsel : s.selected_item = some it) (hcat : s.selected_category = some cat) :
    (¬(input = "" ∨ pyStartsWithStar input ∨ input = "1") ∧ input ≠ "2" ∧ input ≠ "3" ∧
       input ≠ "0" ∧ input ≠ "#" →
      handle_main_menu input s u m =
        (s, ussd_response u m
          (if input.length = 1 ∧ pyIsdigit input then "Invalid option.\n" ++ main_menu_msg
           else main_menu_msg) true)) ∧
    (input ≠ "#" ∧ input ∉ menu_options CATEGORIES.length →
      handle_category input s u m = (s, ussd_response u m category_prompt true)) ∧
    (input ≠ "#" ∧ input ∉ menu_options (MENUS cat).length →
      handle_item input s u m = (s, ussd_response u m (item_prompt cat) true)) ∧
    ((∀ q : Int, pyParseInt input = some q → ¬(1 ≤ q ∧ q ≤ 20)) →
      handle_quantity input s u m = (s, ussd_response u m (qty_prompt it.name) true)) ∧
    (input ≠ "1" ∧ input ≠ "2" ∧ input ≠ "#" →
      handle_cart input s u m = (s, ussd_response u m cart_prompt true)) ∧
    (¬(input ≠ "" ∧ 3 ≤ (pyStrip input.toList).length) →
      handle_delivery input s u m =
        (s, ussd_response u m "Enter delivery location (min 3 chars):" true)) ∧
    (input ≠ "1" ∧ input ≠ "2" ∧ input ≠ "#" →
      handle_payment_method input s u m = (s, ussd_response u m payment_prompt true)) ∧
    (input ≠ "#" ∧ ¬(input = "1" ∨ input = "2" ∨ input = "3") →
      handle_momo_network input s u m = (s, ussd_response u m network_prompt true)) ∧
    (input ≠ "1" ∧ validate_phone_number input = false →
      handle_momo_number input s u m = (s, ussd_response u m (momo_number_prompt m) true)) ∧
    (input ≠ "1" ∧ input ≠ "2" →
      handle_confirm input s u m oid ts pay = show_confirmation s u m ∧
      (show_confirmation s u m).1.state = s.state ∧
      (show_confirmation s u m).1.cart = s.cart) := by
  refine ⟨?_, ?_, ?_, ?_, ?_, ?_, ?_, ?_, ?_, ?_⟩
  · rintro ⟨h0, h2, h3, h4, h5⟩
    unfold handle_main_menu
    rw [if_neg h0, if_neg h2, if_neg h3, if_neg h4, if_neg h5,
        if_neg (by rintro (h | h | h | h) <;> simp_all)]
  · rintro ⟨h1, h2⟩
    unfold handle_category
    rw [if_neg h1, if_neg h2]
  · rintro ⟨h1, h2⟩
    unfold handle_item
    rw [if_neg h1, hcat]
    dsimp only [Option.getD]
    rw [if_neg h2]
  · intro hinv
    unfold handle_quantity
    cases hp : pyParseInt input with
    | none => simp [hsel]
    | some q => simp [hsel, hinv q hp]
  · rintro ⟨h1, h2, h3⟩
    unfold handle_cart
    rw [if_neg h1, if_neg h2, if_neg h3]
  · intro h
    unfold handle_delivery
    rw [if_neg h]
  · rintro ⟨h1, h2, h3⟩
    unfold handle_payment_method
    rw [if_neg h1, if_neg h2, if_neg h3]
  · rintro ⟨h1, h2⟩
    unfold handle_momo_network
    rw [if_neg h1, if_neg h2]
  · rintro ⟨h1, h2⟩
    unfold handle_momo_number
    rw [if_neg h1, if_neg (by simp [h2])]
  · rintro ⟨h1, h2⟩
    unfold handle_confirm
    rw [if_neg h2, if_neg h1]
    exact ⟨rfl, rfl, rfl⟩


/-- C8 witness: the invalid input "99" is rejected in place by every one of
the ten state handlers on a concrete reachable session. -/
theorem C8_invalid_input_no_advance_witness :
    handle_main_menu "99" qty_sample "user" "233241234567" =
      (qty_sample, ussd_response "user" "233241234567"
        (if ("99" : String).length = 1 ∧ pyIsdigit "99" then "Invalid option.\n" ++ main_menu_msg
         else main_menu_msg) true) ∧
    handle_category "99" qty_sample "user" "233241234567" =
      (qty_sample, ussd_response "user" "233241234567" category_prompt true) ∧
    handle_item "99" qty_sample "user" "233241234567" =
      (qty_sample, ussd_response "user" "233241234567" (item_prompt "Local Dishes") true) ∧
    handle_quantity "99" qty_sample "user" "233241234567" =
      (qty_sample, ussd_response "user" "233241234567" (qty_prompt jollof.name) true) ∧
    handle_cart "99" qty_sample "user" "233241234567" =
      (qty_sample, ussd_response "user" "233241234567" cart_prompt true) ∧
    handle_delivery "99" qty_sample "user" "233241234567" =
      (qty_sample,
       ussd_response "user" "233241234567" "Enter delivery location (min 3 chars):" true) ∧
    handle_payment_method "99" qty_sample "user" "233241234567" =
      (qty_sample, ussd_response "user" "233241234567" payment_prompt true) ∧
    handle_momo_network "99" qty_sample "user" "233241234567" =
      (qty_sample, ussd_response "user" "233241234567" network_prompt true) ∧
    handle_momo_number "99" qty_sample "user" "233241234567" =
      (qty_sample, ussd_response "user" "233241234567" (momo_number_prompt "233241234567") true) ∧
    (handle_confirm "99" qty_sample "user" "233241234567" "ORD1" "ts" pay_fail =
      show_confirmation qty_sample "user" "233241234567" ∧
     (show_confirmation qty_sample "user" "233241234567").1.state = qty_sample.state ∧
     (show_confirmation qty_sample "user" "233241234567").1.cart = qty_sample.cart) := by
  have h := C8_invalid_input_no_advance "99" qty_sample "user" "233241234567" "ORD1" "ts"
    pay_fail jollof "Local Dishes" (by decide) (by decide)
  refine ⟨h.1 (by decide), h.2.1 (by decide), h.2.2.1 (by decide), h.2.2.2.1 ?_,
    h.2.2.2.2.1 (by decide), h.2.2.2.2.2.1 (by decide), h.2.2.2.2.2.2.1 (by decide),
    h.2.2.2.2.2.2.2.1 (by decide), h.2.2.2.2.2.2.2.2.1 (by decide),
    h.2.2.2.2.2.2.2.2.2 (by decide)⟩
  intro q hq
  have h99 : pyParseInt "99" = some 99 := by decide
  rw [h99] at hq
  cases hq
  decide
